import Mathlib

/-!
Shallow embedding of the security-monitoring Lambda
(`src/monitoring/lambda/index.js`) of the cloudsecdemo repository.

The Lambda enumerates AWS resources (security groups, S3 buckets, IAM
roles, EKS clusters), runs per-resource compliance checks, counts FAIL
verdicts, publishes a CloudWatch metric and, when there are failures,
an SNS alert.  The embedding models:

* JavaScript exceptions as `Except JsError`;
* `undefined` fields of API responses as `Option`; reading a property
  of an `undefined` value throws (a `TypeError` in JS), while using an
  `undefined` value in a boolean position is falsy;
* each AWS API call made inside a check function as a pre-supplied
  result carried by the resource descriptor (the call either resolves
  to a response or rejects with an error);
* the mutation of `check.checks` via `push` inside `try` blocks:
  items pushed before an exception survive into the `catch` handler,
  which appends a single ERROR item.
-/

namespace CloudSecDemo

/-- A JavaScript exception value, reduced to its message. -/
structure JsError where
  message : String
deriving Repr, DecidableEq

/-- The error JavaScript raises when a property is read off `undefined`. -/
def undefinedError (field : String) : JsError :=
  { message := "Cannot read properties of undefined (reading " ++ field ++ ")" }

/-- The `STATUS` constant of the Lambda: security-check statuses. -/
inductive Status where
  | PASS
  | FAIL
  | ERROR
deriving Repr, DecidableEq, BEq

/-- One element of a resource check's `checks` array:
`{ name, status, details }`. -/
structure CheckItem where
  name : String
  status : Status
  details : Option String
deriving Repr, DecidableEq

/-- The record returned by each `check*` function:
`{ resourceType, resourceId, checks }`. -/
structure ResourceCheck where
  resourceType : String
  resourceId : Option String
  checks : List CheckItem
deriving Repr, DecidableEq

/-- JavaScript truthiness of a possibly-`undefined` boolean. -/
def truthy (b : Option Bool) : Bool := b.getD false

/-- The ERROR item a `catch` block pushes: `{ name, status: ERROR, details: error.message }`. -/
def errorItem (checkName : String) (e : JsError) : CheckItem :=
  { name := checkName, status := Status.ERROR, details := some e.message }

/-! ## Security groups (`checkSecurityGroup`, index.js lines 148-167)

`sg.IpPermissions.some(perm => perm.IpRanges.some(range => range.CidrIp === "0.0.0.0/0"))`
with no `try`/`catch` around it: a missing `IpPermissions` or
`IpRanges` field throws out of `checkSecurityGroup`. -/

/-- An entry of `IpRanges`; `CidrIp` may be absent. -/
structure IpRange where
  CidrIp : Option String
deriving Repr, DecidableEq

/-- An entry of `IpPermissions`; `IpRanges` may be absent. -/
structure IpPermission where
  IpRanges : Option (List IpRange)
deriving Repr, DecidableEq

/-- A security-group descriptor as returned by `describeSecurityGroups`. -/
structure SecurityGroup where
  GroupId : Option String
  IpPermissions : Option (List IpPermission)
deriving Repr, DecidableEq

/-- JavaScript `Array.prototype.some` with a callback that may throw:
stops at the first `true`, propagates the first exception. -/
def someExc (p : α → Except JsError Bool) : List α → Except JsError Bool
  | [] => Except.ok false
  | x :: xs =>
    match p x with
    | Except.error e => Except.error e
    | Except.ok true => Except.ok true
    | Except.ok false => someExc p xs

/-- Callback `range => range.CidrIp === "0.0.0.0/0"` (comparing with
`undefined` is `false`, no throw). -/
def rangeIsOpen (range : IpRange) : Except JsError Bool :=
  Except.ok (range.CidrIp == some "0.0.0.0/0")

/-- Callback `perm => perm.IpRanges.some(...)`: throws if `IpRanges` is absent. -/
def permIsOpen (perm : IpPermission) : Except JsError Bool :=
  match perm.IpRanges with
  | none => Except.error (undefinedError "some")
  | some ranges => someExc rangeIsOpen ranges

/-- The `hasOpenPorts` expression of `checkSecurityGroup`: throws if
`IpPermissions` is absent. -/
def hasOpenPorts (sg : SecurityGroup) : Except JsError Bool :=
  match sg.IpPermissions with
  | none => Except.error (undefinedError "some")
  | some perms => someExc permIsOpen perms

/-- Model of `checkSecurityGroup` (index.js lines 148-167).  There is no
`try`/`catch` here, so an exception from `hasOpenPorts` propagates. -/
def checkSecurityGroup (sg : SecurityGroup) : Except JsError ResourceCheck :=
  match hasOpenPorts sg with
  | Except.error e => Except.error e
  | Except.ok hasOpen =>
    Except.ok
      { resourceType := "SecurityGroup"
        resourceId := sg.GroupId
        checks := [{ name := "open-ports"
                     status := if hasOpen then Status.FAIL else Status.PASS
                     details := if hasOpen then some "Security group has ports open to 0.0.0.0/0" else none }] }

/-! ## A JSON value tree and `JSON.stringify`

`checkIAMRole` tests inline policy documents with
`JSON.stringify(policy.PolicyDocument).includes('"Action": "*"')`.
`JSON.stringify` with no extra arguments emits compact JSON: no space
after `:` or `,`. -/

/-- A schema-free JSON-like value. -/
inductive Json where
  | str : String → Json
  | num : Int → Json
  | bool : Bool → Json
  | null : Json
  | arr : List Json → Json
  | obj : List (String × Json) → Json
deriving Repr

/-- Escape of one character inside a JSON string literal. -/
def jsonEscapeChar (c : Char) : List Char :=
  if c = '"' then ['\\', '"']
  else if c = '\\' then ['\\', '\\']
  else [c]

/-- Escape of a string for inclusion in JSON output. -/
def jsonEscape (s : String) : String :=
  String.mk (s.toList.foldr (fun c acc => jsonEscapeChar c ++ acc) [])

mutual

/-- Compact `JSON.stringify` (no indent argument): no whitespace. -/
def jsonStringify : Json → String
  | Json.str s => "\"" ++ jsonEscape s ++ "\""
  | Json.num n => toString n
  | Json.bool b => if b then "true" else "false"
  | Json.null => "null"
  | Json.arr xs => "[" ++ jsonStringifyArr xs ++ "]"
  | Json.obj kvs => "\x7b" ++ jsonStringifyObj kvs ++ "\x7d"

/-- Comma-separated serialization of array elements. -/
def jsonStringifyArr : List Json → String
  | [] => ""
  | [x] => jsonStringify x
  | x :: y :: rest => jsonStringify x ++ "," ++ jsonStringifyArr (y :: rest)

/-- Comma-separated serialization of object members. -/
def jsonStringifyObj : List (String × Json) → String
  | [] => ""
  | [(k, v)] => "\"" ++ jsonEscape k ++ "\":" ++ jsonStringify v
  | (k, v) :: kv :: rest =>
    "\"" ++ jsonEscape k ++ "\":" ++ jsonStringify v ++ "," ++ jsonStringifyObj (kv :: rest)

end

/-- Does `hay` start with `needle`? (helper for substring search). -/
def charsStartWith : List Char → List Char → Bool
  | _, [] => true
  | [], _ :: _ => false
  | h :: t, n :: ns => h == n && charsStartWith t ns

/-- Does `hay` contain `needle` as a contiguous run? -/
def charsContain (needle : List Char) : List Char → Bool
  | [] => charsStartWith [] needle
  | h :: t => charsStartWith (h :: t) needle || charsContain needle t

/-- JavaScript `String.prototype.includes`. -/
def jsIncludes (hay needle : String) : Bool :=
  charsContain needle.toList hay.toList

/-! ## S3 buckets (`checkS3Bucket`, index.js lines 172-213)

Both API calls and both field checks sit inside one `try` block; the
`catch` appends a single `bucket-check` ERROR item after whatever was
already pushed. -/

/-- The `PublicAccessBlockConfiguration` object; `BlockPublicAcls` may be absent. -/
structure PabConfiguration where
  BlockPublicAcls : Option Bool
deriving Repr, DecidableEq

/-- Response of `s3.getBucketPublicAccessBlock`; the configuration may be absent. -/
structure GetPublicAccessBlockResponse where
  PublicAccessBlockConfiguration : Option PabConfiguration
deriving Repr, DecidableEq

/-- Response of `s3.getBucketEncryption`; truthiness of
`ServerSideEncryptionConfiguration` is all the check reads. -/
structure GetBucketEncryptionResponse where
  ServerSideEncryptionConfiguration : Option Json
deriving Repr

/-- An S3 bucket descriptor, carrying the outcomes of the two API
calls `checkS3Bucket` makes for it (resolve or reject). -/
structure Bucket where
  Name : Option String
  getPublicAccessBlockResult : Except JsError GetPublicAccessBlockResponse
  getBucketEncryptionResult : Except JsError GetBucketEncryptionResponse

/-- Body of the `try` block of `checkS3Bucket`: the items pushed so
far, and the exception that aborted it, if any. -/
def s3TryBody (bucket : Bucket) : List CheckItem × Option JsError :=
  match bucket.getPublicAccessBlockResult with
  | Except.error e => ([], some e)
  | Except.ok publicAccess =>
    match publicAccess.PublicAccessBlockConfiguration with
    | none => ([], some (undefinedError "BlockPublicAcls"))
    | some conf =>
      let item1 : CheckItem :=
        { name := "public-access"
          status := if truthy conf.BlockPublicAcls then Status.PASS else Status.FAIL
          details := some "Public access block configuration" }
      match bucket.getBucketEncryptionResult with
      | Except.error e => ([item1], some e)
      | Except.ok encryption =>
        let item2 : CheckItem :=
          { name := "encryption"
            status := if encryption.ServerSideEncryptionConfiguration.isSome then Status.PASS else Status.FAIL
            details := some "Default encryption configuration" }
        ([item1, item2], none)

/-- Model of `checkS3Bucket` (index.js lines 172-213): never throws. -/
def checkS3Bucket (bucket : Bucket) : ResourceCheck :=
  let body := s3TryBody bucket
  { resourceType := "S3Bucket"
    resourceId := bucket.Name
    checks := body.1 ++ (match body.2 with
      | some e => [errorItem "bucket-check" e]
      | none => []) }

/-! ## IAM roles (`checkIAMRole`, index.js lines 218-258) -/

/-- Response of `iam.listRolePolicies`. -/
structure ListRolePoliciesResponse where
  PolicyNames : List String
deriving Repr, DecidableEq

/-- Response of `iam.getRolePolicy`. -/
structure GetRolePolicyResponse where
  PolicyDocument : Json
deriving Repr

/-- An IAM role descriptor, carrying the outcomes of the API calls
`checkIAMRole` makes for it. -/
structure Role where
  RoleName : Option String
  listRolePoliciesResult : Except JsError ListRolePoliciesResponse
  getRolePolicyResult : String → Except JsError GetRolePolicyResponse

/-- The wildcard test of `checkIAMRole`:
`JSON.stringify(policy.PolicyDocument).includes('"Action": "*"')`.
Note the space after the colon in the needle. -/
def hasWildcardPermissions (doc : Json) : Bool :=
  jsIncludes (jsonStringify doc) "\"Action\": \"*\""

/-- The `for (const policyName of policies.PolicyNames)` loop inside
the `try` block: items pushed so far and the aborting exception, if any. -/
def roleLoop (role : Role) : List String → List CheckItem × Option JsError
  | [] => ([], none)
  | policyName :: rest =>
    match role.getRolePolicyResult policyName with
    | Except.error e => ([], some e)
    | Except.ok policy =>
      let wildcard := hasWildcardPermissions policy.PolicyDocument
      let item : CheckItem :=
        { name := "policy-" ++ policyName
          status := if wildcard then Status.FAIL else Status.PASS
          details := if wildcard then some "Policy contains wildcard permissions" else none }
      let restResult := roleLoop role rest
      (item :: restResult.1, restResult.2)

/-- Model of `checkIAMRole` (index.js lines 218-258): never throws. -/
def checkIAMRole (role : Role) : ResourceCheck :=
  let body :=
    match role.listRolePoliciesResult with
    | Except.error e => ([], some e)
    | Except.ok policies => roleLoop role policies.PolicyNames
  { resourceType := "IAMRole"
    resourceId := role.RoleName
    checks := body.1 ++ (match body.2 with
      | some e => [errorItem "role-check" e]
      | none => []) }

/-! ## EKS clusters (`checkEKSCluster`, index.js lines 263-308) -/

/-- The `resourcesVpcConfig` object; `endpointPrivateAccess` may be absent. -/
structure VpcConfig where
  endpointPrivateAccess : Option Bool
deriving Repr, DecidableEq

/-- One entry of `logging.clusterLogging`. -/
structure LogSetup where
  type : Option String
  enabled : Option Bool
deriving Repr, DecidableEq

/-- The `logging` object; `clusterLogging` may be absent. -/
structure LoggingConfig where
  clusterLogging : Option (List LogSetup)
deriving Repr, DecidableEq

/-- The `cluster` object of a `describeCluster` response. -/
structure ClusterData where
  resourcesVpcConfig : Option VpcConfig
  encryptionConfig : Option Json
  logging : Option LoggingConfig
deriving Repr

/-- Response of `eks.describeCluster`; `cluster` may be absent. -/
structure DescribeClusterResponse where
  cluster : Option ClusterData
deriving Repr

/-- An EKS cluster reference: the name from `listClusters`, plus the
outcome of the `describeCluster` call `checkEKSCluster` makes. -/
structure EKSClusterRef where
  name : String
  describeClusterResult : Except JsError DescribeClusterResponse

/-- Body of the `try` block of `checkEKSCluster`: items pushed so far
and the aborting exception, if any. -/
def eksTryBody (c : EKSClusterRef) : List CheckItem × Option JsError :=
  match c.describeClusterResult with
  | Except.error e => ([], some e)
  | Except.ok resp =>
    match resp.cluster with
    | none => ([], some (undefinedError "resourcesVpcConfig"))
    | some cl =>
      match cl.resourcesVpcConfig with
      | none => ([], some (undefinedError "endpointPrivateAccess"))
      | some vpc =>
        let item1 : CheckItem :=
          { name := "private-endpoint"
            status := if truthy vpc.endpointPrivateAccess then Status.PASS else Status.FAIL
            details := some "Private endpoint access configuration" }
        let item2 : CheckItem :=
          { name := "encryption"
            status := if cl.encryptionConfig.isSome then Status.PASS else Status.FAIL
            details := some "Encryption configuration" }
        match cl.logging with
        | none => ([item1, item2], some (undefinedError "clusterLogging"))
        | some logging =>
          match logging.clusterLogging with
          | none => ([item1, item2], some (undefinedError "some"))
          | some logs =>
            let item3 : CheckItem :=
              { name := "logging"
                status := if logs.any (fun l => truthy l.enabled) then Status.PASS else Status.FAIL
                details := some "Control plane logging configuration" }
            ([item1, item2, item3], none)

/-- Model of `checkEKSCluster` (index.js lines 263-308): never throws. -/
def checkEKSCluster (c : EKSClusterRef) : ResourceCheck :=
  let body := eksTryBody c
  { resourceType := "EKSCluster"
    resourceId := some c.name
    checks := body.1 ++ (match body.2 with
      | some e => [errorItem "cluster-check" e]
      | none => []) }

/-! ## The check run (`runSecurityChecks`, index.js lines 115-143) -/

/-- The tagged-resource batch assembled by `getTaggedResources`. -/
structure Resources where
  securityGroups : List SecurityGroup
  s3Buckets : List Bucket
  iamRoles : List Role
  eksClusters : List EKSClusterRef

/-- The `results` record built by `runSecurityChecks`. -/
structure Results where
  timestamp : String
  environment : Option String
  checks : List ResourceCheck

/-- The security-group loop of `runSecurityChecks`: each iteration
awaits `checkSecurityGroup`, so an exception aborts the whole run. -/
def runSGChecks : List SecurityGroup → Except JsError (List ResourceCheck)
  | [] => Except.ok []
  | sg :: rest =>
    match checkSecurityGroup sg with
    | Except.error e => Except.error e
    | Except.ok c =>
      match runSGChecks rest with
      | Except.error e => Except.error e
      | Except.ok cs => Except.ok (c :: cs)

/-- Model of `runSecurityChecks` (index.js lines 115-143).  `now` stands for
`new Date().toISOString()` and `environment` for
`process.env.ENVIRONMENT`.  The bucket, role, and cluster check
functions catch their own errors and never throw; only the
security-group phase can raise. -/
def runSecurityChecks (now : String) (environment : Option String)
    (resources : Resources) : Except JsError Results :=
  match runSGChecks resources.securityGroups with
  | Except.error e => Except.error e
  | Except.ok sgChecks =>
    Except.ok
      { timestamp := now
        environment := environment
        checks := sgChecks
          ++ resources.s3Buckets.map checkS3Bucket
          ++ resources.iamRoles.map checkIAMRole
          ++ resources.eksClusters.map checkEKSCluster }

/-! ## Result processing (`processResults`, index.js lines 313-346,
and `sendAlert`, lines 351-367) -/

/-- The metric datum published to CloudWatch. -/
structure MetricDatum where
  metricName : String
  value : Nat
  unit : String
  environment : Option String
deriving Repr

/-- The argument record of `sendAlert`. -/
structure AlertInput where
  title : String
  message : String
  severity : String
  details : Option Results

/-- The object `sendAlert` serializes into the SNS `Message`. -/
structure AlertBody where
  message : String
  severity : String
  timestamp : String
  details : Option Results

/-- The SNS publication: `Subject` plus the serialized body. -/
structure SnsPublish where
  subject : String
  body : AlertBody

/-- Model of `sendAlert` (index.js lines 351-367); `now` stands for the
`new Date().toISOString()` taken when the alert is built. -/
def sendAlert (now : String) (alert : AlertInput) : SnsPublish :=
  { subject := "[" ++ alert.severity ++ "] " ++ alert.title
    body := { message := alert.message
              severity := alert.severity
              timestamp := now
              details := alert.details } }

/-- The failure count of `processResults`:
`results.checks.reduce((count, check) => count + check.checks.filter(c => c.status === STATUS.FAIL).length, 0)`. -/
def countFailures (results : Results) : Nat :=
  results.checks.foldl
    (fun count check => count + (check.checks.filter (fun c => c.status == Status.FAIL)).length) 0

/-- Model of `processResults` (index.js lines 313-346): returns the published
metric and, when `failures > 0`, the SNS alert publication. -/
def processResults (now : String) (environment : Option String)
    (results : Results) : MetricDatum × Option SnsPublish :=
  let failures := countFailures results
  let metric : MetricDatum :=
    { metricName := "SecurityCheckFailures"
      value := failures
      unit := "Count"
      environment := environment }
  let alert : Option SnsPublish :=
    if failures > 0 then
      some (sendAlert now
        { title := "Security Check Failures"
          message := "Found " ++ toString failures ++ " security check failures"
          severity := "HIGH"
          details := some results })
    else none
  (metric, alert)

/-! ## Helper notions and lemmas -/

/-- A security-group descriptor carrying the array fields that
`describeSecurityGroups` always populates: `IpPermissions` present,
and `IpRanges` present on every permission. -/
def WfSG (sg : SecurityGroup) : Prop :=
  ∃ perms, sg.IpPermissions = some perms ∧ ∀ p ∈ perms, ∃ ranges, p.IpRanges = some ranges

/-- Pure characterization of the open-ports condition: some ingress
permission has an IP range with CIDR exactly `0.0.0.0/0`. -/
def sgOpen (sg : SecurityGroup) : Bool :=
  (sg.IpPermissions.getD []).any fun p =>
    (p.IpRanges.getD []).any fun r => r.CidrIp == some "0.0.0.0/0"

/-- The check record `checkSecurityGroup` returns on a well-formed descriptor. -/
def openPortsResult (sg : SecurityGroup) : ResourceCheck :=
  { resourceType := "SecurityGroup"
    resourceId := sg.GroupId
    checks := [{ name := "open-ports"
                 status := if sgOpen sg then Status.FAIL else Status.PASS
                 details := if sgOpen sg then some "Security group has ports open to 0.0.0.0/0" else none }] }

theorem someExc_rangeIsOpen (ranges : List IpRange) :
    someExc rangeIsOpen ranges =
      Except.ok (ranges.any fun r => r.CidrIp == some "0.0.0.0/0") := by
  induction ranges with
  | nil => rfl
  | cons r rs ih =>
    cases h : (r.CidrIp == some "0.0.0.0/0") with
    | true => simp [someExc, rangeIsOpen, h]
    | false => simp [someExc, rangeIsOpen, h, ih]

theorem someExc_permIsOpen (perms : List IpPermission)
    (h : ∀ p ∈ perms, ∃ ranges, p.IpRanges = some ranges) :
    someExc permIsOpen perms =
      Except.ok (perms.any fun p =>
        (p.IpRanges.getD []).any fun r => r.CidrIp == some "0.0.0.0/0") := by
  induction perms with
  | nil => rfl
  | cons p ps ih =>
    obtain ⟨ranges, hr⟩ := h p (by simp)
    have hrest := ih (fun q hq => h q (by simp [hq]))
    cases hb : (ranges.any fun r => r.CidrIp == some "0.0.0.0/0") with
    | true => simp [someExc, permIsOpen, hr, someExc_rangeIsOpen, hb]
    | false => simp [someExc, permIsOpen, hr, someExc_rangeIsOpen, hb, hrest]

theorem hasOpenPorts_wf (sg : SecurityGroup) (h : WfSG sg) :
    hasOpenPorts sg = Except.ok (sgOpen sg) := by
  obtain ⟨perms, hp, hr⟩ := h
  unfold hasOpenPorts sgOpen
  rw [hp]
  simp [someExc_permIsOpen perms hr]

theorem checkSecurityGroup_wf (sg : SecurityGroup) (h : WfSG sg) :
    checkSecurityGroup sg = Except.ok (openPortsResult sg) := by
  unfold checkSecurityGroup
  rw [hasOpenPorts_wf sg h]
  rfl

theorem runSGChecks_wf (sgs : List SecurityGroup) (h : ∀ sg ∈ sgs, WfSG sg) :
    runSGChecks sgs = Except.ok (sgs.map openPortsResult) := by
  induction sgs with
  | nil => rfl
  | cons sg rest ih =>
    unfold runSGChecks
    rw [checkSecurityGroup_wf sg (h sg (by simp)), ih (fun q hq => h q (by simp [hq]))]
    rfl

theorem runSecurityChecks_eq (now : String) (env : Option String) (rs : Resources) :
    runSecurityChecks now env rs =
      (runSGChecks rs.securityGroups).map (fun sgChecks =>
        { timestamp := now
          environment := env
          checks := sgChecks ++ rs.s3Buckets.map checkS3Bucket
            ++ rs.iamRoles.map checkIAMRole ++ rs.eksClusters.map checkEKSCluster }) := by
  unfold runSecurityChecks
  cases runSGChecks rs.securityGroups <;> rfl

theorem countFailures_foldl (l : List ResourceCheck) (a : Nat) :
    l.foldl (fun count check =>
        count + (check.checks.filter (fun c => c.status == Status.FAIL)).length) a =
      a + ((l.map ResourceCheck.checks).flatten.filter (fun c => c.status == Status.FAIL)).length := by
  induction l generalizing a with
  | nil => simp
  | cons c cs ih => simp [ih, Nat.add_assoc]

theorem countFailures_eq (results : Results) :
    countFailures results =
      ((results.checks.map ResourceCheck.checks).flatten.filter
        (fun c => c.status == Status.FAIL)).length := by
  unfold countFailures
  rw [countFailures_foldl]
  simp

/-! ## Claim theorems -/

/-- C4: for every check run, the published numeric failure total
("SecurityCheckFailures") equals the number of verdicts with status
FAIL across all resources; ERROR and PASS verdicts contribute zero. -/
theorem c4_metric_counts_only_fail (now : String) (env : Option String) (results : Results) :
    (processResults now env results).1.metricName = "SecurityCheckFailures" ∧
    (processResults now env results).1.value =
      ((results.checks.map ResourceCheck.checks).flatten.filter
        (fun c => c.status == Status.FAIL)).length := by
  refine ⟨rfl, ?_⟩
  show countFailures results = _
  exact countFailures_eq results

/-- C5: after a check run, `processResults` publishes an alert iff the
number of FAIL verdicts exceeds zero, and the alert body carries a
severity, the timestamp, and the full results record. -/
theorem c5_alert_iff_failures (now : String) (env : Option String) (results : Results) :
    ((processResults now env results).2.isSome ↔
      0 < ((results.checks.map ResourceCheck.checks).flatten.filter
        (fun c => c.status == Status.FAIL)).length) ∧
    (∀ p, (processResults now env results).2 = some p →
      p.body.severity = "HIGH" ∧ p.body.timestamp = now ∧ p.body.details = some results) := by
  constructor
  · rw [← countFailures_eq]
    by_cases h : countFailures results > 0
    · simp [processResults, h]
    · simp [processResults, h]
  · intro p hp
    by_cases h : countFailures results > 0
    · have heq : (processResults now env results).2 = some (sendAlert now
        { title := "Security Check Failures"
          message := "Found " ++ toString (countFailures results) ++ " security check failures"
          severity := "HIGH"
          details := some results }) := by
        simp [processResults, h]
      rw [heq] at hp
      obtain rfl := Option.some.inj hp
      exact ⟨rfl, rfl, rfl⟩
    · have heq : (processResults now env results).2 = none := by
        simp [processResults, h]
      rw [heq] at hp
      exact absurd hp (by simp)

/-- A concrete results record with exactly one FAIL verdict. -/
def resultsOneFail : Results :=
  { timestamp := "2024-01-01T00:00:00Z"
    environment := some "insecure"
    checks := [{ resourceType := "SecurityGroup"
                 resourceId := some "sg-1"
                 checks := [{ name := "open-ports"
                              status := Status.FAIL
                              details := some "Security group has ports open to 0.0.0.0/0" }] }] }

/-- C5 witness: on a concrete report with one FAIL verdict an alert is
published, with severity HIGH, the given timestamp, and the report
itself as details. -/
theorem c5_alert_iff_failures_witness :
    ∃ p, (processResults "2024-01-01T00:05:00Z" (some "insecure") resultsOneFail).2 = some p ∧
      p.body.severity = "HIGH" ∧ p.body.timestamp = "2024-01-01T00:05:00Z" ∧
      p.body.details = some resultsOneFail := by
  have hsome : (processResults "2024-01-01T00:05:00Z" (some "insecure") resultsOneFail).2 =
      some (sendAlert "2024-01-01T00:05:00Z"
        { title := "Security Check Failures"
          message := "Found 1 security check failures"
          severity := "HIGH"
          details := some resultsOneFail }) := rfl
  exact ⟨_, hsome,
    (c5_alert_iff_failures "2024-01-01T00:05:00Z" (some "insecure") resultsOneFail).2 _ hsome⟩

/-- C9: the check run is deterministic; its verdict sequence does not
depend on the timestamp, and evaluating any checker twice on the same
descriptor yields identical results. -/
theorem c9_determinism (now1 now2 : String) (env : Option String) (rs : Resources) :
    (runSecurityChecks now1 env rs).map Results.checks =
      (runSecurityChecks now2 env rs).map Results.checks ∧
    runSecurityChecks now1 env rs = runSecurityChecks now1 env rs ∧
    (∀ sg : SecurityGroup, checkSecurityGroup sg = checkSecurityGroup sg) ∧
    (∀ b : Bucket, checkS3Bucket b = checkS3Bucket b) ∧
    (∀ role : Role, checkIAMRole role = checkIAMRole role) ∧
    (∀ c : EKSClusterRef, checkEKSCluster c = checkEKSCluster c) := by
  refine ⟨?_, rfl, fun _ => rfl, fun _ => rfl, fun _ => rfl, fun _ => rfl⟩
  unfold runSecurityChecks
  cases runSGChecks rs.securityGroups <;> rfl

/-- The EKS cluster descriptor of the end-to-end scenario: private
endpoint access off, no encryption config, one disabled logging type. -/
def clusterAllFail : EKSClusterRef :=
  { name := "cloudsecdemo-cluster"
    describeClusterResult := Except.ok
      { cluster := some
          { resourcesVpcConfig := some { endpointPrivateAccess := some false }
            encryptionConfig := none
            logging := some { clusterLogging := some [{ type := some "api", enabled := some false }] } } } }

/-- C7: a batch of exactly one such cluster descriptor produces exactly
three verdicts, all FAIL, in the order private-endpoint, encryption,
logging. -/
theorem c7_cluster_three_fails :
    runSecurityChecks "2024-01-01T00:00:00Z" (some "insecure")
        { securityGroups := [], s3Buckets := [], iamRoles := [], eksClusters := [clusterAllFail] } =
      Except.ok
        { timestamp := "2024-01-01T00:00:00Z"
          environment := some "insecure"
          checks := [{ resourceType := "EKSCluster"
                       resourceId := some "cloudsecdemo-cluster"
                       checks := [{ name := "private-endpoint"
                                    status := Status.FAIL
                                    details := some "Private endpoint access configuration" },
                                  { name := "encryption"
                                    status := Status.FAIL
                                    details := some "Encryption configuration" },
                                  { name := "logging"
                                    status := Status.FAIL
                                    details := some "Control plane logging configuration" }] }] } := rfl

/-- A security-group descriptor whose `IpPermissions` field is missing. -/
def sgMissingPermissions : SecurityGroup :=
  { GroupId := some "sg-malformed", IpPermissions := none }

/-- C1 counterexample: a batch holding one SecurityGroup descriptor
with `IpPermissions` missing makes `runSecurityChecks` itself throw —
the error is not recovered into an ERROR verdict, refuting the claim
that no exception crosses the check-run boundary. -/
theorem c1_counterexample_sg_error_escapes :
    runSecurityChecks "2024-01-01T00:00:00Z" (some "insecure")
        { securityGroups := [sgMissingPermissions], s3Buckets := [], iamRoles := [], eksClusters := [] } =
      Except.error (undefinedError "some") := rfl

/-- C1 amended: the bucket, role, and cluster checkers recover their
errors locally (they are total, returning a check record), and no
exception crosses `runSecurityChecks` provided every SecurityGroup
descriptor carries its `IpPermissions`/`IpRanges` arrays; the
security-group checker alone has no recovery path. -/
theorem c1_amended_no_throw_when_sgs_wellformed (now : String) (env : Option String)
    (rs : Resources) (h : ∀ sg ∈ rs.securityGroups, WfSG sg) :
    runSecurityChecks now env rs =
      Except.ok
        { timestamp := now
          environment := env
          checks := rs.securityGroups.map openPortsResult
            ++ rs.s3Buckets.map checkS3Bucket
            ++ rs.iamRoles.map checkIAMRole
            ++ rs.eksClusters.map checkEKSCluster } := by
  rw [runSecurityChecks_eq, runSGChecks_wf rs.securityGroups h]
  rfl

/-- A well-formed security-group descriptor with only a private CIDR. -/
def sgWellFormed : SecurityGroup :=
  { GroupId := some "sg-app"
    IpPermissions := some [{ IpRanges := some [{ CidrIp := some "10.0.0.0/16" }] }] }

/-- A bucket whose public-access-block API call rejects. -/
def bucketApiError : Bucket :=
  { Name := some "cloudsecdemo-data"
    getPublicAccessBlockResult := Except.error { message := "NoSuchPublicAccessBlockConfiguration" }
    getBucketEncryptionResult := Except.ok { ServerSideEncryptionConfiguration := none } }

/-- C1 witness: on a concrete batch with a well-formed security group
and a bucket whose API call fails, the run returns normally and the
bucket failure surfaces as an ERROR verdict. -/
theorem c1_amended_witness :
    runSecurityChecks "2024-01-01T00:00:00Z" none
        { securityGroups := [sgWellFormed], s3Buckets := [bucketApiError], iamRoles := [], eksClusters := [] } =
      Except.ok
        { timestamp := "2024-01-01T00:00:00Z"
          environment := none
          checks := [openPortsResult sgWellFormed, checkS3Bucket bucketApiError] } := by
  have h : ∀ sg ∈ ([sgWellFormed] : List SecurityGroup), WfSG sg := by
    intro sg hsg
    simp only [List.mem_singleton] at hsg
    subst hsg
    refine ⟨_, rfl, ?_⟩
    intro p hp
    simp only [List.mem_singleton] at hp
    subst hp
    exact ⟨_, rfl⟩
  simpa using c1_amended_no_throw_when_sgs_wellformed "2024-01-01T00:00:00Z" none
    { securityGroups := [sgWellFormed], s3Buckets := [bucketApiError], iamRoles := [], eksClusters := [] } h

/-- A bucket whose `getBucketPublicAccessBlock` call resolves but the
response lacks `PublicAccessBlockConfiguration` entirely. -/
def bucketNoPabField : Bucket :=
  { Name := some "cloudsecdemo-logs"
    getPublicAccessBlockResult := Except.ok { PublicAccessBlockConfiguration := none }
    getBucketEncryptionResult := Except.ok
      { ServerSideEncryptionConfiguration := some (Json.obj [("Rules", Json.arr [])]) } }

/-- C2 counterexample: with `PublicAccessBlockConfiguration` missing,
the bucket's whole check collapses to a single resource-level
`bucket-check` ERROR item; in particular no `encryption` verdict is
produced for the bucket, refuting the claimed (resource, rule)
isolation. -/
theorem c2_counterexample_no_encryption_verdict :
    (checkS3Bucket bucketNoPabField).checks =
      [{ name := "bucket-check"
         status := Status.ERROR
         details := some "Cannot read properties of undefined (reading BlockPublicAcls)" }] ∧
    ¬ ∃ item ∈ (checkS3Bucket bucketNoPabField).checks, item.name = "encryption" := by
  constructor
  · rfl
  · decide

/-- C2 amended: a bucket whose response lacks
`PublicAccessBlockConfiguration` yields exactly one ERROR verdict,
named `bucket-check`, with no `public-access` or `encryption` verdict
for that bucket; the error is isolated to that resource — every other
descriptor in the same run contributes exactly the verdicts it would
contribute alone. -/
theorem c2_amended_error_isolated_per_resource (now : String) (env : Option String)
    (sgs : List SecurityGroup) (hwf : ∀ sg ∈ sgs, WfSG sg)
    (pre post : List Bucket) (b : Bucket)
    (hb : b.getPublicAccessBlockResult = Except.ok { PublicAccessBlockConfiguration := none })
    (roles : List Role) (clusters : List EKSClusterRef) :
    checkS3Bucket b =
      { resourceType := "S3Bucket"
        resourceId := b.Name
        checks := [errorItem "bucket-check" (undefinedError "BlockPublicAcls")] } ∧
    runSecurityChecks now env
        { securityGroups := sgs, s3Buckets := pre ++ b :: post, iamRoles := roles, eksClusters := clusters } =
      Except.ok
        { timestamp := now
          environment := env
          checks := sgs.map openPortsResult
            ++ (pre.map checkS3Bucket
                ++ [{ resourceType := "S3Bucket"
                      resourceId := b.Name
                      checks := [errorItem "bucket-check" (undefinedError "BlockPublicAcls")] }]
                ++ post.map checkS3Bucket)
            ++ roles.map checkIAMRole
            ++ clusters.map checkEKSCluster } := by
  have hcb : checkS3Bucket b =
      { resourceType := "S3Bucket"
        resourceId := b.Name
        checks := [errorItem "bucket-check" (undefinedError "BlockPublicAcls")] } := by
    unfold checkS3Bucket s3TryBody
    rw [hb]
    rfl
  refine ⟨hcb, ?_⟩
  rw [runSecurityChecks_eq]
  rw [runSGChecks_wf sgs hwf]
  simp [Except.map, List.map_append, hcb]

/-- C2 witness: the amended statement at a concrete batch of one bucket. -/
theorem c2_amended_witness :
    runSecurityChecks "2024-01-01T00:00:00Z" none
        { securityGroups := [], s3Buckets := [bucketNoPabField], iamRoles := [], eksClusters := [] } =
      Except.ok
        { timestamp := "2024-01-01T00:00:00Z"
          environment := none
          checks := [{ resourceType := "S3Bucket"
                       resourceId := some "cloudsecdemo-logs"
                       checks := [errorItem "bucket-check" (undefinedError "BlockPublicAcls")] }] } := by
  have h := c2_amended_error_isolated_per_resource "2024-01-01T00:00:00Z" none []
    (by intro sg hsg; exact absurd hsg (List.not_mem_nil sg)) [] [] bucketNoPabField rfl [] []
  simpa using h.2

/-- An inline policy document granting every action on every resource. -/
def wildcardPolicyDocument : Json :=
  Json.obj [("Version", Json.str "2012-10-17"),
            ("Action", Json.str "*"),
            ("Effect", Json.str "Allow"),
            ("Resource", Json.str "*")]

/-- A role carrying one inline policy whose document is the wildcard
document above. -/
def roleWithWildcardPolicy : Role :=
  { RoleName := some "cloudsecdemo-app-role"
    listRolePoliciesResult := Except.ok { PolicyNames := ["admin-access"] }
    getRolePolicyResult := fun _ => Except.ok { PolicyDocument := wildcardPolicyDocument } }

/-- C3: the wildcard detector compares against the needle
`"Action": "*"` — with a space after the colon — but compact
`JSON.stringify` output never contains that space, so the detector
returns false and the verdict is PASS even for a policy document whose
`Action` is `"*"`.  The space-free needle would have matched. -/
theorem c3_wildcard_detector_never_fires :
    jsonStringify wildcardPolicyDocument =
      "\x7b\"Version\":\"2012-10-17\",\"Action\":\"*\",\"Effect\":\"Allow\",\"Resource\":\"*\"\x7d" ∧
    jsIncludes (jsonStringify wildcardPolicyDocument) "\"Action\":\"*\"" = true ∧
    hasWildcardPermissions wildcardPolicyDocument = false ∧
    (checkIAMRole roleWithWildcardPolicy).checks =
      [{ name := "policy-admin-access", status := Status.PASS, details := none }] :=
  ⟨rfl, rfl, rfl, rfl⟩

/-- C10: `checkIAMRole` emits one verdict per inline policy, named
`policy-<policyName>`, whenever the API calls succeed; in particular a
role with zero inline policies contributes an empty verdict list. -/
theorem c10_one_verdict_per_policy (role : Role) (names : List String)
    (h : role.listRolePoliciesResult = Except.ok { PolicyNames := names })
    (h2 : ∀ n ∈ names, ∃ doc, role.getRolePolicyResult n = Except.ok doc) :
    (checkIAMRole role).checks.map CheckItem.name = names.map (fun n => "policy-" ++ n) ∧
    (names = [] → (checkIAMRole role).checks = []) := by
  have hloop : ∀ ns, (∀ n ∈ ns, ∃ doc, role.getRolePolicyResult n = Except.ok doc) →
      (roleLoop role ns).2 = none ∧
      (roleLoop role ns).1.map CheckItem.name = ns.map (fun n => "policy-" ++ n) := by
    intro ns
    induction ns with
    | nil => intro _; exact ⟨rfl, rfl⟩
    | cons n rest ih =>
      intro hh
      obtain ⟨doc, hdoc⟩ := hh n (by simp)
      obtain ⟨ht, hm⟩ := ih (fun q hq => hh q (by simp [hq]))
      refine ⟨?_, ?_⟩
      · simp [roleLoop, hdoc, ht]
      · simp [roleLoop, hdoc, hm]
  obtain ⟨ht, hm⟩ := hloop names h2
  constructor
  · simp [checkIAMRole, h, ht, hm]
  · intro hnil
    subst hnil
    simp [checkIAMRole, h, roleLoop]

/-- A role with zero inline policies. -/
def roleNoPolicies : Role :=
  { RoleName := some "cloudsecdemo-eks-node-role"
    listRolePoliciesResult := Except.ok { PolicyNames := [] }
    getRolePolicyResult := fun _ => Except.error { message := "NoSuchEntity" } }

/-- C10 witness: a role with zero inline policies yields no verdict at all. -/
theorem c10_one_verdict_per_policy_witness :
    (checkIAMRole roleNoPolicies).checks = [] :=
  (c10_one_verdict_per_policy roleNoPolicies [] rfl
    (by intro n hn; exact absurd hn (List.not_mem_nil n))).2 rfl

theorem sgOpen_iff (sg : SecurityGroup) (perms : List IpPermission)
    (hp : sg.IpPermissions = some perms)
    (hr : ∀ p ∈ perms, ∃ ranges, p.IpRanges = some ranges) :
    sgOpen sg = true ↔
      ∃ p ∈ perms, ∃ ranges, p.IpRanges = some ranges ∧
        ∃ r ∈ ranges, r.CidrIp = some "0.0.0.0/0" := by
  unfold sgOpen
  rw [hp]
  simp only [Option.getD_some, List.any_eq_true]
  constructor
  · rintro ⟨p, hpmem, hpany⟩
    obtain ⟨ranges, hranges⟩ := hr p hpmem
    rw [hranges] at hpany
    simp only [Option.getD_some, List.any_eq_true, beq_iff_eq] at hpany
    obtain ⟨r, hrmem, hcidr⟩ := hpany
    exact ⟨p, hpmem, ranges, hranges, r, hrmem, hcidr⟩
  · rintro ⟨p, hpmem, ranges, hranges, r, hrmem, hcidr⟩
    refine ⟨p, hpmem, ?_⟩
    rw [hranges]
    simp only [Option.getD_some, List.any_eq_true, beq_iff_eq]
    exact ⟨r, hrmem, hcidr⟩

/-- C6: for a SecurityGroup descriptor carrying its permission arrays,
the open-ports check yields FAIL exactly when some ingress permission
has an IP range with CIDR `0.0.0.0/0`, and PASS when none does. -/
theorem c6_open_ports_fail_iff_world_open (sg : SecurityGroup) (perms : List IpPermission)
    (hp : sg.IpPermissions = some perms)
    (hr : ∀ p ∈ perms, ∃ ranges, p.IpRanges = some ranges) :
    ∃ c, checkSecurityGroup sg = Except.ok c ∧
      ((∃ p ∈ perms, ∃ ranges, p.IpRanges = some ranges ∧
          ∃ r ∈ ranges, r.CidrIp = some "0.0.0.0/0") →
        c.checks = [{ name := "open-ports", status := Status.FAIL,
                      details := some "Security group has ports open to 0.0.0.0/0" }]) ∧
      ((¬ ∃ p ∈ perms, ∃ ranges, p.IpRanges = some ranges ∧
          ∃ r ∈ ranges, r.CidrIp = some "0.0.0.0/0") →
        c.checks = [{ name := "open-ports", status := Status.PASS, details := none }]) := by
  refine ⟨openPortsResult sg, checkSecurityGroup_wf sg ⟨perms, hp, hr⟩, ?_, ?_⟩
  · intro hopen
    have hb : sgOpen sg = true := (sgOpen_iff sg perms hp hr).mpr hopen
    simp [openPortsResult, hb]
  · intro hclosed
    have hb : sgOpen sg = false := by
      cases hcase : sgOpen sg with
      | false => rfl
      | true => exact absurd ((sgOpen_iff sg perms hp hr).mp hcase) hclosed
    simp [openPortsResult, hb]

/-- A security group with one ingress permission open to the world. -/
def sgOpenToWorld : SecurityGroup :=
  { GroupId := some "sg-insecure-app"
    IpPermissions := some [{ IpRanges := some [{ CidrIp := some "0.0.0.0/0" }] }] }

/-- C6 witness: the concrete world-open security group gets a FAIL verdict. -/
theorem c6_open_ports_witness :
    ∃ c, checkSecurityGroup sgOpenToWorld = Except.ok c ∧
      c.checks = [{ name := "open-ports", status := Status.FAIL,
                    details := some "Security group has ports open to 0.0.0.0/0" }] := by
  obtain ⟨c, hc, hfail, _⟩ := c6_open_ports_fail_iff_world_open sgOpenToWorld
    [{ IpRanges := some [{ CidrIp := some "0.0.0.0/0" }] }] rfl
    (by
      intro p hp
      simp only [List.mem_singleton] at hp
      subst hp
      exact ⟨_, rfl⟩)
  refine ⟨c, hc, hfail ?_⟩
  refine ⟨{ IpRanges := some [{ CidrIp := some "0.0.0.0/0" }] }, by simp, ?_⟩
  exact ⟨[{ CidrIp := some "0.0.0.0/0" }], rfl, { CidrIp := some "0.0.0.0/0" }, by simp, rfl⟩

/-- The rule names each resource kind's checker can emit (the three
`*-check` names are the resource-level ERROR items of the `catch`
blocks). -/
def ruleNamesMatchKind (resourceType ruleName : String) : Prop :=
  (resourceType = "SecurityGroup" ∧ ruleName = "open-ports") ∨
  (resourceType = "S3Bucket" ∧
    (ruleName = "public-access" ∨ ruleName = "encryption" ∨ ruleName = "bucket-check")) ∨
  (resourceType = "IAMRole" ∧ ((∃ p, ruleName = "policy-" ++ p) ∨ ruleName = "role-check")) ∨
  (resourceType = "EKSCluster" ∧
    (ruleName = "private-endpoint" ∨ ruleName = "encryption" ∨
     ruleName = "logging" ∨ ruleName = "cluster-check"))

theorem checkSecurityGroup_names (sg : SecurityGroup) (c : ResourceCheck)
    (h : checkSecurityGroup sg = Except.ok c) :
    c.resourceType = "SecurityGroup" ∧ ∀ item ∈ c.checks, item.name = "open-ports" := by
  unfold checkSecurityGroup at h
  cases hop : hasOpenPorts sg with
  | error e => rw [hop] at h; exact absurd h (by simp)
  | ok b =>
    rw [hop] at h
    injection h with h1
    subst h1
    refine ⟨rfl, ?_⟩
    intro item hmem
    simp only [List.mem_singleton] at hmem
    subst hmem
    rfl

theorem checkS3Bucket_names (b : Bucket) :
    (checkS3Bucket b).resourceType = "S3Bucket" ∧
    ∀ item ∈ (checkS3Bucket b).checks,
      item.name = "public-access" ∨ item.name = "encryption" ∨ item.name = "bucket-check" := by
  refine ⟨rfl, ?_⟩
  intro item hmem
  unfold checkS3Bucket s3TryBody at hmem
  cases hpab : b.getPublicAccessBlockResult with
  | error e =>
    simp only [hpab] at hmem
    simp [errorItem] at hmem
    simp [hmem]
  | ok pa =>
    cases hconf : pa.PublicAccessBlockConfiguration with
    | none =>
      simp only [hpab, hconf] at hmem
      simp [errorItem] at hmem
      simp [hmem]
    | some conf =>
      cases henc : b.getBucketEncryptionResult with
      | error e =>
        simp only [hpab, hconf, henc] at hmem
        simp [errorItem] at hmem
        rcases hmem with h | h <;> simp [h]
      | ok enc =>
        simp only [hpab, hconf, henc] at hmem
        simp at hmem
        rcases hmem with h | h <;> simp [h]

theorem roleLoop_names (role : Role) (ns : List String) :
    ∀ item ∈ (roleLoop role ns).1, ∃ p, item.name = "policy-" ++ p := by
  induction ns with
  | nil => intro item hmem; exact absurd hmem (List.not_mem_nil item)
  | cons n rest ih =>
    intro item hmem
    cases hg : role.getRolePolicyResult n with
    | error e => simp [roleLoop, hg] at hmem
    | ok policy =>
      simp only [roleLoop, hg] at hmem
      rcases List.mem_cons.mp hmem with h | h
      · exact ⟨n, by simp [h]⟩
      · exact ih item h

theorem checkIAMRole_names (role : Role) :
    (checkIAMRole role).resourceType = "IAMRole" ∧
    ∀ item ∈ (checkIAMRole role).checks,
      (∃ p, item.name = "policy-" ++ p) ∨ item.name = "role-check" := by
  refine ⟨rfl, ?_⟩
  intro item hmem
  unfold checkIAMRole at hmem
  cases hl : role.listRolePoliciesResult with
  | error e =>
    simp only [hl] at hmem
    simp [errorItem] at hmem
    simp [hmem]
  | ok policies =>
    simp only [hl] at hmem
    rcases List.mem_append.mp hmem with h | h
    · exact Or.inl (roleLoop_names role policies.PolicyNames item h)
    · cases ht : (roleLoop role policies.PolicyNames).2 with
      | none => rw [ht] at h; exact absurd h (List.not_mem_nil item)
      | some e =>
        rw [ht] at h
        simp [errorItem] at h
        simp [h]

theorem checkEKSCluster_names (c : EKSClusterRef) :
    (checkEKSCluster c).resourceType = "EKSCluster" ∧
    ∀ item ∈ (checkEKSCluster c).checks,
      item.name = "private-endpoint" ∨ item.name = "encryption" ∨
      item.name = "logging" ∨ item.name = "cluster-check" := by
  refine ⟨rfl, ?_⟩
  intro item hmem
  unfold checkEKSCluster eksTryBody at hmem
  cases hd : c.describeClusterResult with
  | error e => simp only [hd] at hmem; simp [errorItem] at hmem; simp [hmem]
  | ok resp =>
    cases hcl : resp.cluster with
    | none => simp only [hd, hcl] at hmem; simp [errorItem] at hmem; simp [hmem]
    | some cl =>
      cases hv : cl.resourcesVpcConfig with
      | none => simp only [hd, hcl, hv] at hmem; simp [errorItem] at hmem; simp [hmem]
      | some vpc =>
        cases hlg : cl.logging with
        | none =>
          simp only [hd, hcl, hv, hlg] at hmem
          simp [errorItem] at hmem
          rcases hmem with h | h | h <;> simp [h]
        | some logging =>
          cases hcll : logging.clusterLogging with
          | none =>
            simp only [hd, hcl, hv, hlg, hcll] at hmem
            simp [errorItem] at hmem
            rcases hmem with h | h | h <;> simp [h]
          | some logs =>
            simp only [hd, hcl, hv, hlg, hcll] at hmem
            simp at hmem
            rcases hmem with h | h | h <;> simp [h]

theorem runSGChecks_mem (sgs : List SecurityGroup) (l : List ResourceCheck)
    (h : runSGChecks sgs = Except.ok l) :
    ∀ c ∈ l, ∃ sg ∈ sgs, checkSecurityGroup sg = Except.ok c := by
  induction sgs generalizing l with
  | nil =>
    intro c hc
    unfold runSGChecks at h
    injection h with h1
    subst h1
    exact absurd hc (List.not_mem_nil c)
  | cons sg rest ih =>
    intro c hc
    unfold runSGChecks at h
    cases hsg : checkSecurityGroup sg with
    | error e => rw [hsg] at h; exact absurd h (by simp)
    | ok c0 =>
      rw [hsg] at h
      cases hrest : runSGChecks rest with
      | error e => rw [hrest] at h; exact absurd h (by simp)
      | ok cs =>
        rw [hrest] at h
        injection h with h1
        subst h1
        rcases List.mem_cons.mp hc with h2 | h2
        · subst h2; exact ⟨sg, by simp, hsg⟩
        · obtain ⟨sg2, hmem, hok⟩ := ih cs hrest c h2
          exact ⟨sg2, by simp [hmem], hok⟩

/-- C8: when a run returns normally, its check sequence is the
security groups in order, then the buckets, roles, and clusters in
order, each descriptor contributing exactly its own checker's record;
every verdict name belongs to its descriptor's kind; and a kind with
no descriptors contributes no check of that kind. -/
theorem c8_report_order_and_kinds (now : String) (env : Option String)
    (rs : Resources) (r : Results)
    (h : runSecurityChecks now env rs = Except.ok r) :
    (∃ sgChecks, runSGChecks rs.securityGroups = Except.ok sgChecks ∧
       r.checks = sgChecks ++ rs.s3Buckets.map checkS3Bucket
         ++ rs.iamRoles.map checkIAMRole ++ rs.eksClusters.map checkEKSCluster) ∧
    (∀ c ∈ r.checks, ∀ item ∈ c.checks, ruleNamesMatchKind c.resourceType item.name) ∧
    (rs.securityGroups = [] → ∀ c ∈ r.checks, c.resourceType ≠ "SecurityGroup") ∧
    (rs.s3Buckets = [] → ∀ c ∈ r.checks, c.resourceType ≠ "S3Bucket") ∧
    (rs.iamRoles = [] → ∀ c ∈ r.checks, c.resourceType ≠ "IAMRole") ∧
    (rs.eksClusters = [] → ∀ c ∈ r.checks, c.resourceType ≠ "EKSCluster") := by
  unfold runSecurityChecks at h
  cases hsg : runSGChecks rs.securityGroups with
  | error e => rw [hsg] at h; exact absurd h (by simp)
  | ok sgChecks =>
  rw [hsg] at h
  injection h with h1
  subst h1
  have hmain : ∀ c, c ∈ sgChecks ++ rs.s3Buckets.map checkS3Bucket
       ++ rs.iamRoles.map checkIAMRole ++ rs.eksClusters.map checkEKSCluster →
      ((c ∈ sgChecks ∧ c.resourceType = "SecurityGroup") ∨
       (c ∈ rs.s3Buckets.map checkS3Bucket ∧ c.resourceType = "S3Bucket") ∨
       (c ∈ rs.iamRoles.map checkIAMRole ∧ c.resourceType = "IAMRole") ∨
       (c ∈ rs.eksClusters.map checkEKSCluster ∧ c.resourceType = "EKSCluster")) ∧
      (∀ item ∈ c.checks, ruleNamesMatchKind c.resourceType item.name) := by
    intro c hc
    simp only [List.mem_append] at hc
    rcases hc with ((hc | hc) | hc) | hc
    · obtain ⟨sg, _, hok⟩ := runSGChecks_mem rs.securityGroups sgChecks hsg c hc
      obtain ⟨htype, hnames⟩ := checkSecurityGroup_names sg c hok
      refine ⟨Or.inl ⟨hc, htype⟩, ?_⟩
      intro item hitem
      exact Or.inl ⟨htype, hnames item hitem⟩
    · obtain ⟨b, _, rfl⟩ := List.mem_map.mp hc
      obtain ⟨htype, hnames⟩ := checkS3Bucket_names b
      refine ⟨Or.inr (Or.inl ⟨hc, htype⟩), ?_⟩
      intro item hitem
      exact Or.inr (Or.inl ⟨htype, hnames item hitem⟩)
    · obtain ⟨role, _, rfl⟩ := List.mem_map.mp hc
      obtain ⟨htype, hnames⟩ := checkIAMRole_names role
      refine ⟨Or.inr (Or.inr (Or.inl ⟨hc, htype⟩)), ?_⟩
      intro item hitem
      exact Or.inr (Or.inr (Or.inl ⟨htype, hnames item hitem⟩))
    · obtain ⟨cl, _, rfl⟩ := List.mem_map.mp hc
      obtain ⟨htype, hnames⟩ := checkEKSCluster_names cl
      refine ⟨Or.inr (Or.inr (Or.inr ⟨hc, htype⟩)), ?_⟩
      intro item hitem
      exact Or.inr (Or.inr (Or.inr ⟨htype, hnames item hitem⟩))
  refine ⟨⟨sgChecks, rfl, rfl⟩, ?_, ?_, ?_, ?_, ?_⟩
  · intro c hc
    exact (hmain c (by simpa using hc)).2
  · intro hempty c hc
    have hnil : sgChecks = [] := by
      rw [hempty] at hsg
      unfold runSGChecks at hsg
      exact (Except.ok.inj hsg).symm
    rcases (hmain c (by simpa using hc)).1 with ⟨hm, _⟩ | ⟨_, ht⟩ | ⟨_, ht⟩ | ⟨_, ht⟩
    · rw [hnil] at hm; exact absurd hm (List.not_mem_nil c)
    · rw [ht]; decide
    · rw [ht]; decide
    · rw [ht]; decide
  · intro hempty c hc
    rcases (hmain c (by simpa using hc)).1 with ⟨_, ht⟩ | ⟨hm, _⟩ | ⟨_, ht⟩ | ⟨_, ht⟩
    · rw [ht]; decide
    · rw [hempty] at hm; simp at hm
    · rw [ht]; decide
    · rw [ht]; decide
  · intro hempty c hc
    rcases (hmain c (by simpa using hc)).1 with ⟨_, ht⟩ | ⟨_, ht⟩ | ⟨hm, _⟩ | ⟨_, ht⟩
    · rw [ht]; decide
    · rw [ht]; decide
    · rw [hempty] at hm; simp at hm
    · rw [ht]; decide
  · intro hempty c hc
    rcases (hmain c (by simpa using hc)).1 with ⟨_, ht⟩ | ⟨_, ht⟩ | ⟨_, ht⟩ | ⟨hm, _⟩
    · rw [ht]; decide
    · rw [ht]; decide
    · rw [ht]; decide
    · rw [hempty] at hm; simp at hm

/-- A mixed concrete batch: one security group, one bucket, no roles,
one cluster. -/
def resourcesMixed : Resources :=
  { securityGroups := [sgOpenToWorld]
    s3Buckets := [bucketNoPabField]
    iamRoles := []
    eksClusters := [clusterAllFail] }

/-- The report the mixed batch produces. -/
def reportMixed : Results :=
  { timestamp := "2024-02-02T00:00:00Z"
    environment := some "insecure"
    checks := [openPortsResult sgOpenToWorld, checkS3Bucket bucketNoPabField,
               checkEKSCluster clusterAllFail] }

/-- C8 witness: the order/kind statement instantiated at the mixed batch. -/
theorem c8_report_order_and_kinds_witness :
    (∃ sgChecks, runSGChecks resourcesMixed.securityGroups = Except.ok sgChecks ∧
       reportMixed.checks = sgChecks ++ resourcesMixed.s3Buckets.map checkS3Bucket
         ++ resourcesMixed.iamRoles.map checkIAMRole
         ++ resourcesMixed.eksClusters.map checkEKSCluster) ∧
    (∀ c ∈ reportMixed.checks, ∀ item ∈ c.checks, ruleNamesMatchKind c.resourceType item.name) ∧
    (resourcesMixed.securityGroups = [] → ∀ c ∈ reportMixed.checks, c.resourceType ≠ "SecurityGroup") ∧
    (resourcesMixed.s3Buckets = [] → ∀ c ∈ reportMixed.checks, c.resourceType ≠ "S3Bucket") ∧
    (resourcesMixed.iamRoles = [] → ∀ c ∈ reportMixed.checks, c.resourceType ≠ "IAMRole") ∧
    (resourcesMixed.eksClusters = [] → ∀ c ∈ reportMixed.checks, c.resourceType ≠ "EKSCluster") :=
  c8_report_order_and_kinds "2024-02-02T00:00:00Z" (some "insecure") resourcesMixed reportMixed rfl

end CloudSecDemo
